import Mathlib

/-!
Verification development for the dealership management server
(src/backend/server.ts, first variant, plus the client-side rental
overlap check in src/src/pages/rentals/add-rental.tsx).

The spreadsheet rows read from the backing store are lists of strings;
indexing past the end of a row models the JavaScript `undefined`.
JavaScript numbers are modelled as `Option Rat`, with `none` standing
for `NaN`; the numeral parsers below model `Number`, `parseFloat` and
`parseInt` on the plain decimal forms that occur in spreadsheet cells
(hexadecimal, exponent and Infinity forms are not modelled, no claim
depends on them).
-/

/-- A raw spreadsheet row as returned by a range read: a list of cell
strings.  `row[i]` in JavaScript is `cell row i` below, with `none`
modelling `undefined` for an out-of-range index. -/
abbrev Row := List String

/-- JavaScript `row[i]`: `none` when the index is out of range. -/
def cell (row : Row) (i : Nat) : Option String :=
  row.get? i

/-- A JavaScript number: `none` is `NaN`. -/
abbrev JsNum := Option Rat

/-- Numeric value of a list of decimal digit characters. -/
def digitsVal (cs : List Char) : Nat :=
  cs.foldl (fun a c => a * 10 + (c.toNat - 48)) 0

/-- Whitespace for the purposes of numeric-string trimming. -/
def isJsSpace (c : Char) : Bool :=
  c = ' ' || c = '\t' || c = '\n' || c = '\r'

/-- Leading and trailing whitespace removal on a character list. -/
def trimChars (cs : List Char) : List Char :=
  ((cs.dropWhile isJsSpace).reverse.dropWhile isJsSpace).reverse

/-- Decimal digit characters of `n`, most significant first; the fuel
argument bounds the recursion and is always passed as at least `n+1`. -/
def natToChars (fuel n : Nat) : List Char :=
  match fuel with
  | 0 => []
  | f + 1 =>
    if n < 10 then [Char.ofNat (48 + n)]
    else natToChars f (n / 10) ++ [Char.ofNat (48 + n % 10)]

/-- Decimal rendering of an integer, as a JavaScript template literal
renders a number value. -/
def intToDecStr (i : Int) : String :=
  match i with
  | .ofNat n => String.mk (natToChars (n + 1) n)
  | .negSucc m => String.mk ('-' :: natToChars (m + 2) (m + 1))

/-- Core decimal parser shared by the `Number` model: the whole input
must be `digits`, `digits.digits`, `digits.` or `.digits`. -/
def parseDecCore (cs : List Char) : JsNum :=
  let ip := cs.takeWhile Char.isDigit
  let rest := cs.dropWhile Char.isDigit
  match rest with
  | [] => if ip.isEmpty then none else some (digitsVal ip)
  | '.' :: rest2 =>
    let fp := rest2.takeWhile Char.isDigit
    let rest3 := rest2.dropWhile Char.isDigit
    if rest3.isEmpty && !(ip.isEmpty && fp.isEmpty) then
      some ((digitsVal ip : Rat) + (digitsVal fp : Rat) / ((10 : Rat) ^ fp.length))
    else none
  | _ => none

/-- Model of JavaScript `Number(s)` on decimal strings: the trimmed
empty string converts to 0; otherwise an optional sign followed by a
decimal numeral; anything else is `NaN`. -/
def jsNumber (s : String) : JsNum :=
  match trimChars s.toList with
  | [] => some 0
  | '-' :: rest => (parseDecCore rest).map (fun q => -q)
  | '+' :: rest => parseDecCore rest
  | cs => parseDecCore cs

/-- `Number(row[i])`: `Number(undefined)` is `NaN`. -/
def jsNumberCell (c : Option String) : JsNum :=
  match c with
  | none => none
  | some s => jsNumber s

/-- Core of `parseFloat`: parses a leading decimal numeral and ignores
any trailing characters; `NaN` when no digit leads. -/
def parseFloatCore (cs : List Char) : JsNum :=
  let ip := cs.takeWhile Char.isDigit
  let rest := cs.dropWhile Char.isDigit
  if ip.isEmpty then
    match rest with
    | '.' :: rest2 =>
      let fp := rest2.takeWhile Char.isDigit
      if fp.isEmpty then none
      else some ((digitsVal fp : Rat) / ((10 : Rat) ^ fp.length))
    | _ => none
  else
    match rest with
    | '.' :: rest2 =>
      let fp := rest2.takeWhile Char.isDigit
      some ((digitsVal ip : Rat) + (digitsVal fp : Rat) / ((10 : Rat) ^ fp.length))
    | _ => some (digitsVal ip)

/-- Model of JavaScript `parseFloat(s)` on decimal strings. -/
def parseFloatJs (s : String) : JsNum :=
  match trimChars s.toList with
  | '-' :: rest => (parseFloatCore rest).map (fun q => -q)
  | '+' :: rest => parseFloatCore rest
  | cs => parseFloatCore cs

/-- `parseFloat(row[i])`: `parseFloat(undefined)` is `NaN`. -/
def parseFloatCell (c : Option String) : JsNum :=
  match c with
  | none => none
  | some s => parseFloatJs s

/-- Model of JavaScript `parseInt(s)` (radix 10): optional sign then
leading decimal digits, ignoring any trailing characters; `NaN` when no
digit leads. -/
def parseIntJs (s : String) : Option Int :=
  let core : List Char → Option Int := fun cs =>
    let ip := cs.takeWhile Char.isDigit
    if ip.isEmpty then none else some (digitsVal ip)
  match trimChars s.toList with
  | '-' :: rest => (core rest).map (fun n => -n)
  | '+' :: rest => core rest
  | cs => core cs

/-- `parseInt(row[i])` with `parseInt(undefined) = NaN`. -/
def parseIntCell (c : Option String) : Option Int :=
  match c with
  | none => none
  | some s => parseIntJs s

/-- JavaScript `x || 0` on a number: `NaN` and `0` are both falsy and
yield `0`, so this is exactly `Option.getD`. -/
def jsOrZero (x : JsNum) : Rat :=
  x.getD 0

/-- JavaScript `x || 0` on the int-valued `parseInt` results. -/
def jsOrZeroInt (x : Option Int) : Int :=
  x.getD 0

/-- True when the pattern is an initial segment of the string. -/
def charsLead : List Char → List Char → Bool
  | [], _ => true
  | _ :: _, [] => false
  | c :: cs, d :: ds => c = d && charsLead cs ds

/-- JavaScript `s.replace(pat, "")` with a string pattern: removes the
first occurrence of `pat` (an empty pattern matches at position 0). -/
def removeFirst (pat : List Char) : List Char → List Char
  | [] => []
  | c :: rest =>
    if charsLead pat (c :: rest) then (c :: rest).drop pat.length
    else c :: removeFirst pat rest

/-- String-level wrapper for `removeFirst`. -/
def removeFirstStr (s pat : String) : String :=
  String.mk (removeFirst pat.toList s.toList)

/-- JavaScript `Math.max(...l)` on a nonempty list; the empty case is
never reached by the guarded caller (`Math.max()` would be negative
infinity, returned here as 0 only to keep the function total). -/
def mathMax : List Int → Int
  | [] => 0
  | x :: xs => xs.foldl max x

/-- Embeds `generateId` (src/backend/server.ts lines 207 to 212): the
counter is `Math.max(...existingIds.map(id => parseInt(id.replace(pre,
"")) || 0)) + 1` when the id list is nonempty, else 1, and the result
is the prefix string followed by the unpadded decimal counter.  The
source names the first parameter `prefix`, a reserved word in Lean. -/
def generateId (pre : String) (existingIds : List String) : String :=
  let counter : Int :=
    if existingIds.length > 0 then
      mathMax (existingIds.map (fun id => jsOrZeroInt (parseIntJs (removeFirstStr id pre)))) + 1
    else 1
  pre ++ intToDecStr counter

/-- The backing spreadsheet as seen through the range reads the server
issues.  Each `...Rows` field is the data range of the sheet (rows 2
and below, e.g. `Cars!A2:V`); each `...ColA` field is the full
single-column scan `Sheet!A:A`, which includes the header row when the
sheet has one. -/
structure Store where
  carsRows : List Row
  carsColA : List String
  repairsRows : List Row
  repairsColA : List String
  salesRows : List Row
  salesColA : List String
  rentalsRows : List Row
  rentalsColA : List String
deriving DecidableEq

/-- Pagination metadata of a paginated response. -/
structure Pagination where
  currentPage : Nat
  totalPages : Int
  totalItems : Int
  limit : Nat
deriving DecidableEq

/-- A paginated JSON response body. -/
structure Paged (α : Type) where
  data : List α
  pagination : Pagination
deriving DecidableEq

/-- `Math.ceil(t / l)` for an integer `t` and positive integer `l`,
the only shape with which the server ever calls it: the standard
identity ceil(t / l) = floor((t + l - 1) / l) for l > 0, written with
Euclidean division. -/
def jsCeil (t l : Int) : Int :=
  (t + l - 1).ediv l

/-- Embeds `createPaginatedResponse` (src/backend/server.ts lines 43
to 58). -/
def createPaginatedResponse (data : List α) (page limit : Nat) (totalItems : Int) :
    Paged α :=
  { data := data
    pagination :=
      { currentPage := page
        totalPages := jsCeil totalItems limit
        totalItems := totalItems
        limit := limit } }

/-- `Number(c || 0)`: a falsy cell (missing or blank) is replaced by
the number 0 before conversion. -/
def numberOfOrZero (c : Option String) : JsNum :=
  match c with
  | none => some 0
  | some s => if s = "" then some 0 else jsNumber s

/-- The Car record produced by the `GET /api/cars` row decode
(src/backend/server.ts lines 261 to 284).  String fields are the raw
cells (`none` = undefined for a missing cell); `year`, `purchasePrice`
and `totalCost` are unguarded `Number(...)` conversions, so `none`
(NaN) is possible; the three additional-cost fields and `profitLoss`
carry `|| 0` guards; `partnerReturns` is `row[21] || ""`. -/
structure CarPage where
  id : Option String
  make : Option String
  model : Option String
  year : JsNum
  color : Option String
  registrationNumber : Option String
  purchasePrice : JsNum
  purchaseDate : Option String
  currentStatus : Option String
  condition : Option String
  sellerName : Option String
  sellerContact : Option String
  transportCost : Rat
  inspectionCost : Rat
  otherCosts : Rat
  totalCost : JsNum
  location : Option String
  documents : Option String
  photo : Option String
  investmentSplit : Option String
  profitLoss : JsNum
  partnerReturns : String
deriving DecidableEq

/-- Row decode of the `GET /api/cars` handler. -/
def decodeCarPage (row : Row) : CarPage :=
  { id := cell row 0
    make := cell row 1
    model := cell row 2
    year := jsNumberCell (cell row 3)
    color := cell row 4
    registrationNumber := cell row 5
    purchasePrice := jsNumberCell (cell row 6)
    purchaseDate := cell row 7
    currentStatus := cell row 8
    condition := cell row 9
    sellerName := cell row 10
    sellerContact := cell row 11
    transportCost := jsOrZero (jsNumberCell (cell row 12))
    inspectionCost := jsOrZero (jsNumberCell (cell row 13))
    otherCosts := jsOrZero (jsNumberCell (cell row 14))
    totalCost := jsNumberCell (cell row 15)
    location := cell row 16
    documents := cell row 17
    photo := cell row 18
    investmentSplit := cell row 19
    profitLoss := numberOfOrZero (cell row 20)
    partnerReturns := (cell row 21).getD "" }

/-- The Car record produced by the `GET /api/recent-entries` row decode
(src/backend/server.ts lines 725 to 748): every numeric field goes
through `parseInt`/`parseFloat` with an `|| 0` guard; string fields are
the raw cells. -/
structure CarRecent where
  id : Option String
  make : Option String
  model : Option String
  year : Int
  color : Option String
  registrationNumber : Option String
  purchasePrice : Rat
  purchaseDate : Option String
  currentStatus : Option String
  condition : Option String
  sellerName : Option String
  sellerContact : Option String
  transportCost : Rat
  inspectionCost : Rat
  otherCosts : Rat
  totalCost : Rat
  location : Option String
  documents : Option String
  photo : Option String
  investmentSplit : Option String
  profitLoss : Rat
  partnerReturns : Option String
deriving DecidableEq

/-- Row decode of the cars section of `GET /api/recent-entries`. -/
def decodeCarRecent (row : Row) : CarRecent :=
  { id := cell row 0
    make := cell row 1
    model := cell row 2
    year := jsOrZeroInt (parseIntCell (cell row 3))
    color := cell row 4
    registrationNumber := cell row 5
    purchasePrice := jsOrZero (parseFloatCell (cell row 6))
    purchaseDate := cell row 7
    currentStatus := cell row 8
    condition := cell row 9
    sellerName := cell row 10
    sellerContact := cell row 11
    transportCost := jsOrZero (parseFloatCell (cell row 12))
    inspectionCost := jsOrZero (parseFloatCell (cell row 13))
    otherCosts := jsOrZero (parseFloatCell (cell row 14))
    totalCost := jsOrZero (parseFloatCell (cell row 15))
    location := cell row 16
    documents := cell row 17
    photo := cell row 18
    investmentSplit := cell row 19
    profitLoss := jsOrZero (parseFloatCell (cell row 20))
    partnerReturns := cell row 21 }

/-- The Repair record of the `GET /api/repairs` row decode
(src/backend/server.ts lines 482 to 493). -/
structure RepairJson where
  id : Option String
  carId : Option String
  repairDate : Option String
  description : Option String
  cost : JsNum
  mechanicName : Option String
  serviceProviderName : Option String
  serviceProviderContact : Option String
  serviceProviderAddress : Option String
deriving DecidableEq

/-- Row decode of the `GET /api/repairs` handler. -/
def decodeRepair (row : Row) : RepairJson :=
  { id := cell row 0
    carId := cell row 1
    repairDate := cell row 2
    description := cell row 3
    cost := jsNumberCell (cell row 4)
    mechanicName := cell row 5
    serviceProviderName := cell row 6
    serviceProviderContact := cell row 7
    serviceProviderAddress := cell row 8 }

/-- The Sale record of the `GET /api/sales` row decode
(src/backend/server.ts lines 585 to 596). -/
structure SaleJson where
  id : Option String
  carId : Option String
  saleDate : Option String
  salePrice : JsNum
  buyerName : Option String
  buyerContactInfo : Option String
  profit : JsNum
  paymentStatus : Option String
  totalRepairCosts : JsNum
  netProfit : JsNum
deriving DecidableEq

/-- Row decode of the `GET /api/sales` handler. -/
def decodeSale (row : Row) : SaleJson :=
  { id := cell row 0
    carId := cell row 1
    saleDate := cell row 2
    salePrice := jsNumberCell (cell row 3)
    buyerName := cell row 4
    buyerContactInfo := cell row 5
    profit := jsNumberCell (cell row 6)
    paymentStatus := cell row 7
    totalRepairCosts := jsNumberCell (cell row 8)
    netProfit := jsNumberCell (cell row 9) }

/-- The Rental record of the `GET /api/rentals` row decode
(src/backend/server.ts lines 918 to 934). -/
structure RentalJson where
  id : Option String
  carId : Option String
  customerName : Option String
  customerContact : Option String
  startDate : Option String
  returnDate : Option String
  daysLeft : JsNum
  daysOut : JsNum
  dailyRate : JsNum
  totalRentEarned : JsNum
  damageFee : Rat
  lateFee : Rat
  otherFee : Rat
  additionalCostsDescription : String
  rentalStatus : Option String
deriving DecidableEq

/-- Row decode of the `GET /api/rentals` handler. -/
def decodeRental (row : Row) : RentalJson :=
  { id := cell row 0
    carId := cell row 1
    customerName := cell row 2
    customerContact := cell row 3
    startDate := cell row 4
    returnDate := cell row 5
    daysLeft := jsNumberCell (cell row 6)
    daysOut := jsNumberCell (cell row 7)
    dailyRate := jsNumberCell (cell row 8)
    totalRentEarned := jsNumberCell (cell row 9)
    damageFee := jsOrZero (jsNumberCell (cell row 10))
    lateFee := jsOrZero (jsNumberCell (cell row 11))
    otherFee := jsOrZero (jsNumberCell (cell row 12))
    additionalCostsDescription := (cell row 13).getD ""
    rentalStatus := cell row 14 }

/-- Embeds the `GET /api/cars` handler (src/backend/server.ts lines
245 to 296): full-range read, full decode, then in-memory slice
`[(page-1)*limit, (page-1)*limit + limit)`; `totalItems` is the length
of the `Cars!A:A` scan minus one.  `page` and `limit` are the values
produced by `validatePaginationParams`, hence at least 1. -/
def getCars (s : Store) (page limit : Nat) : Paged CarPage :=
  let totalItems : Int := (s.carsColA.length : Int) - 1
  let allCars := s.carsRows.map decodeCarPage
  let startIndex := (page - 1) * limit
  let paginatedCars := (allCars.drop startIndex).take limit
  createPaginatedResponse paginatedCars page limit totalItems

/-- Embeds the `GET /api/repairs` handler (src/backend/server.ts lines
465 to 506): decodes every row, filters by the `carId` query parameter
when that parameter is truthy (the empty string models an absent
parameter), and never slices the data to the page; `totalItems` is the
`Repairs!A:A` scan length minus one, ignoring the filter. -/
def getRepairs (s : Store) (page limit : Nat) (carId : String) : Paged RepairJson :=
  let repairs := s.repairsRows.map decodeRepair
  let filteredRepairs :=
    if carId ≠ "" then repairs.filter (fun rp => rp.carId = some carId) else repairs
  let totalItems : Int := (s.repairsColA.length : Int) - 1
  createPaginatedResponse filteredRepairs page limit totalItems

/-- Embeds the `GET /api/sales` handler (src/backend/server.ts lines
568 to 603): decodes every row and returns them all; no slice. -/
def getSales (s : Store) (page limit : Nat) : Paged SaleJson :=
  let totalItems : Int := (s.salesColA.length : Int) - 1
  let sales := s.salesRows.map decodeSale
  createPaginatedResponse sales page limit totalItems

/-- Embeds the `GET /api/rentals` handler (src/backend/server.ts lines
910 to 947): decodes every row and returns them all; no slice. -/
def getRentals (s : Store) (page limit : Nat) : Paged RentalJson :=
  let rentals := s.rentalsRows.map decodeRental
  let totalItems : Int := (s.rentalsColA.length : Int) - 1
  createPaginatedResponse rentals page limit totalItems

/-- An entirely empty store: all range reads return no rows. -/
def stEmpty : Store :=
  { carsRows := [], carsColA := [], repairsRows := [], repairsColA := []
    salesRows := [], salesColA := [], rentalsRows := [], rentalsColA := [] }

/-- A store with three car rows (header present in the column scan). -/
def stCars3 : Store :=
  { stEmpty with
    carsRows := [["C1", "Toyota"], ["C2", "Honda"], ["C3", "Ford"]]
    carsColA := ["ID", "C1", "C2", "C3"] }

/-- A store with two rental rows (header present in the column scan). -/
def stRentals2 : Store :=
  { stEmpty with
    rentalsRows := [["RN1", "C1"], ["RN2", "C2"]]
    rentalsColA := ["ID", "RN1", "RN2"] }

/-- A store with three repair rows, two of them for car C1. -/
def stRepairs3 : Store :=
  { stEmpty with
    repairsRows := [["R1", "C1"], ["R2", "C2"], ["R3", "C1"]]
    repairsColA := ["ID", "R1", "R2", "R3"] }

/-- A value written to the store: JavaScript rows sent to the append
and update calls mix strings, numbers, null (formula placeholders) and
undefined. -/
inductive JsVal where
  | undef : JsVal
  | nullv : JsVal
  | str : String → JsVal
  | num : JsNum → JsVal
deriving DecidableEq

/-- A raw read cell as a written value: a missing cell is undefined. -/
def rawVal : Option String → JsVal
  | none => .undef
  | some s => .str s

/-- JavaScript `x || y` where `x` is an optional request field (absent
or empty string is falsy) and `y` a raw cell. -/
def jsOrStr (x : Option String) (y : Option String) : JsVal :=
  match x with
  | some s => if s = "" then rawVal y else .str s
  | none => rawVal y

/-- Truthiness of a JavaScript number: `NaN` and 0 are falsy. -/
def numTruthy : JsNum → Bool
  | none => false
  | some q => q != 0

/-- JavaScript `x || y` on two numbers, as a written value. -/
def jsNumOr (x y : JsNum) : JsVal :=
  .num (if numTruthy x then x else y)

/-- `Number(updates.f)` for an optional request field:
`Number(undefined)` is `NaN`. -/
def numOfField (u : Option String) : JsNum :=
  match u with
  | none => none
  | some s => jsNumber s

/-- JavaScript `x || dflt` on a request string field with `""` playing
the role of an absent or falsy value. -/
def jsOrDefaultStr (x dflt : String) : String :=
  if x = "" then dflt else x

/-- The sheet a write addresses. -/
inductive SheetName where
  | cars : SheetName
  | repairs : SheetName
  | sales : SheetName
  | rentals : SheetName
deriving DecidableEq

/-- One write call issued against the backing store.  `append` is a
`values.append` of one row; `updateRowAt i vals` is a `values.update`
at range `Sheet!A{i+2}` overwriting the row cells from column A on;
`updateCell col i v` is a single-cell `values.update` such as
`Cars!I{i+2}` (column I is index 8). -/
inductive Effect where
  | append : SheetName → List JsVal → Effect
  | updateRowAt : SheetName → Nat → List JsVal → Effect
  | updateCell : SheetName → Nat → Nat → JsVal → Effect
deriving DecidableEq

/-- True exactly for a single-cell write to the Cars status column
(column I, index 8). -/
def isStatusCellWrite : Effect → Bool
  | .updateCell .cars 8 _ _ => true
  | _ => false

/-- The result of a request handler: an HTTP status for the success
path, or a status plus error message. -/
inductive ApiResult where
  | ok : Nat → ApiResult
  | apiError : Nat → String → ApiResult
deriving DecidableEq

/-- JavaScript `Array.prototype.findIndex`, with `none` for -1. -/
def findIndexJs (p : α → Bool) : List α → Option Nat
  | [] => none
  | a :: l => if p a then some 0 else (findIndexJs p l).map (· + 1)

/-- The body of `POST /api/sales`; every field is modelled as the
string form of the JSON value, with `""` standing for an absent or
otherwise falsy field. -/
structure SaleRequest where
  carId : String
  saleDate : String
  salePrice : String
  buyerName : String
  buyerContactInfo : String
  paymentStatus : String
deriving DecidableEq

/-- The required-field check of `POST /api/sales` (src/backend/server.ts
lines 617 to 621). -/
def saleMissingFields (r : SaleRequest) : List String :=
  (([("carId", r.carId), ("saleDate", r.saleDate), ("salePrice", r.salePrice),
     ("buyerName", r.buyerName), ("buyerContactInfo", r.buyerContactInfo),
     ("paymentStatus", r.paymentStatus)]).filter (fun p => p.2 = "")).map Prod.fst

/-- The Sale row appended by `POST /api/sales` (src/backend/server.ts
lines 646 to 657): profit, total repair costs and net profit are
written as explicit blanks for the store formulas to fill. -/
def saleNewRow (r : SaleRequest) (newId : String) : List JsVal :=
  [.str newId, .str r.carId, .str r.saleDate, .str r.salePrice, .str r.buyerName,
   .str r.buyerContactInfo, .str "", .str r.paymentStatus, .str "", .str ""]

/-- Embeds the `POST /api/sales` handler (src/backend/server.ts lines
605 to 694): required-field validation, car lookup (404), sold check on
the status cell (400), then append of the Sale row followed by a
single-cell update writing "Sold" into `Cars!I{row}`. -/
def createSale (s : Store) (r : SaleRequest) : ApiResult × List Effect :=
  let missing := saleMissingFields r
  if missing ≠ [] then
    (.apiError 400 ("Missing required fields: " ++ String.intercalate ", " missing), [])
  else
    match s.carsRows.find? (fun row => cell row 0 = some r.carId) with
    | none => (.apiError 404 "Car not found", [])
    | some carRow =>
      if cell carRow 8 = some "Sold" then (.apiError 400 "Car is already sold", [])
      else
        let existingIds := s.salesRows.map (fun row => (cell row 0).getD "")
        let newId := generateId "S" existingIds
        let statusEffects : List Effect :=
          match findIndexJs (fun row => cell row 0 = some r.carId) s.carsRows with
          | some i => [.updateCell .cars 8 i (.str "Sold")]
          | none => []
        (.ok 201, .append .sales (saleNewRow r newId) :: statusEffects)

/-- The body of `POST /api/rentals`, with the same string convention
as `SaleRequest`. -/
structure RentalRequest where
  carId : String
  customerName : String
  customerContact : String
  startDate : String
  returnDate : String
  dailyRate : String
  damageFee : String
  lateFee : String
  otherFee : String
  additionalCostsDescription : String
deriving DecidableEq

/-- The required-field check of `POST /api/rentals`
(src/backend/server.ts lines 965 to 969). -/
def rentalMissingFields (r : RentalRequest) : List String :=
  (([("carId", r.carId), ("customerName", r.customerName),
     ("customerContact", r.customerContact), ("startDate", r.startDate),
     ("returnDate", r.returnDate), ("dailyRate", r.dailyRate)]).filter
      (fun p => p.2 = "")).map Prod.fst

/-- The Rental row appended by `POST /api/rentals`
(src/backend/server.ts lines 992 to 1008): days left, days out, total
earned and rental status are blanks for the store formulas; the
optional fees fall back to the empty string, which under the string
model is the field itself. -/
def rentalNewRow (r : RentalRequest) (newId : String) : List JsVal :=
  [.str newId, .str r.carId, .str r.customerName, .str r.customerContact,
   .str r.startDate, .str r.returnDate, .str "", .str "", .str r.dailyRate, .str "",
   .str r.damageFee, .str r.lateFee, .str r.otherFee,
   .str r.additionalCostsDescription, .str ""]

/-- Embeds the `POST /api/rentals` handler (src/backend/server.ts
lines 949 to 1037): required-field validation, car lookup (404), a
status-cell equality check against "Available" (400 otherwise), then
the append.  The handler never reads the start or return dates of the
existing rentals: there is no overlap check here. -/
def createRental (s : Store) (r : RentalRequest) : ApiResult × List Effect :=
  let missing := rentalMissingFields r
  if missing ≠ [] then
    (.apiError 400 ("Missing required fields: " ++ String.intercalate ", " missing), [])
  else
    match s.carsRows.find? (fun row => cell row 0 = some r.carId) with
    | none => (.apiError 404 "Car not found", [])
    | some carRow =>
      if cell carRow 8 ≠ some "Available" then
        (.apiError 400 "Car is not available for rent", [])
      else
        let existingIds := s.rentalsRows.map (fun row => (cell row 0).getD "")
        let newId := generateId "RN" existingIds
        (.ok 201, [.append .rentals (rentalNewRow r newId)])

/-- The body of `POST /api/cars` after the file uploads: the two URLs
are the values returned by the upload calls (empty when no file). -/
structure CarCreateRequest where
  make : String
  model : String
  year : String
  color : String
  registrationNumber : String
  purchasePrice : String
  purchaseDate : String
  condition : String
  sellerName : String
  sellerContact : String
  transportCost : String
  inspectionCost : String
  otherCosts : String
  location : String
  investmentSplit : String
  documentsUrl : String
  photoUrl : String
deriving DecidableEq

/-- The Car row appended by `POST /api/cars` (src/backend/server.ts
lines 338 to 361): the four formula columns (current status, total
cost, profit/loss, partner returns) are written as null. -/
def carNewRow (r : CarCreateRequest) (newId : String) : List JsVal :=
  [.str newId, .str r.make, .str r.model, .str r.year, .str r.color,
   .str r.registrationNumber, .str r.purchasePrice, .str r.purchaseDate, .nullv,
   .str r.condition, .str r.sellerName, .str r.sellerContact,
   .str (jsOrDefaultStr r.transportCost "0"), .str (jsOrDefaultStr r.inspectionCost "0"),
   .str (jsOrDefaultStr r.otherCosts "0"), .nullv, .str r.location, .str r.documentsUrl,
   .str r.photoUrl, .str r.investmentSplit, .nullv, .nullv]

/-- Embeds the sheet write of the `POST /api/cars` handler
(src/backend/server.ts lines 298 to 396). -/
def createCar (s : Store) (r : CarCreateRequest) : ApiResult × List Effect :=
  let existingIds := s.carsRows.map (fun row => (cell row 0).getD "")
  let newId := generateId "C" existingIds
  (.ok 201, [.append .cars (carNewRow r newId)])

/-- The body of `POST /api/repairs`. -/
structure RepairCreateRequest where
  carId : String
  repairDate : String
  description : String
  cost : String
  mechanicName : String
  serviceProviderName : String
  serviceProviderContact : String
  serviceProviderAddress : String
deriving DecidableEq

/-- The Repair row appended by `POST /api/repairs`
(src/backend/server.ts lines 529 to 539). -/
def repairNewRow (r : RepairCreateRequest) (newId : String) : List JsVal :=
  [.str newId, .str r.carId, .str r.repairDate, .str r.description, .str r.cost,
   .str r.mechanicName, .str r.serviceProviderName, .str r.serviceProviderContact,
   .str r.serviceProviderAddress]

/-- Embeds the `POST /api/repairs` handler (src/backend/server.ts
lines 508 to 565). -/
def createRepair (s : Store) (r : RepairCreateRequest) : ApiResult × List Effect :=
  let existingIds := s.repairsRows.map (fun row => (cell row 0).getD "")
  let newId := generateId "R" existingIds
  (.ok 201, [.append .repairs (repairNewRow r newId)])

/-- The body of `PUT /api/cars/:id`: any subset of the editable fields
may be present (`none` = absent from the JSON body). -/
structure CarUpdate where
  make : Option String
  model : Option String
  year : Option String
  color : Option String
  registrationNumber : Option String
  purchasePrice : Option String
  purchaseDate : Option String
  condition : Option String
  sellerName : Option String
  sellerContact : Option String
  transportCost : Option String
  inspectionCost : Option String
  otherCosts : Option String
  location : Option String
  investmentSplit : Option String
deriving DecidableEq

/-- An update request with no fields. -/
def emptyCarUpdate : CarUpdate :=
  { make := none, model := none, year := none, color := none,
    registrationNumber := none, purchasePrice := none, purchaseDate := none,
    condition := none, sellerName := none, sellerContact := none,
    transportCost := none, inspectionCost := none, otherCosts := none,
    location := none, investmentSplit := none }

/-- The row written by `PUT /api/cars/:id` (src/backend/server.ts lines
417 to 440): string fields via `updates.f || currentRow[i]`, numeric
fields via `Number(updates.f) || Number(currentRow[i])`, and the
formula columns (8, 15, 20, 21) plus documents and photo (17, 18)
carried over from the read row unchanged. -/
def carUpdatedRow (currentRow : Row) (id : String) (u : CarUpdate) : List JsVal :=
  [.str id,
   jsOrStr u.make (cell currentRow 1),
   jsOrStr u.model (cell currentRow 2),
   jsOrStr u.year (cell currentRow 3),
   jsOrStr u.color (cell currentRow 4),
   jsOrStr u.registrationNumber (cell currentRow 5),
   jsNumOr (numOfField u.purchasePrice) (jsNumberCell (cell currentRow 6)),
   jsOrStr u.purchaseDate (cell currentRow 7),
   rawVal (cell currentRow 8),
   jsOrStr u.condition (cell currentRow 9),
   jsOrStr u.sellerName (cell currentRow 10),
   jsOrStr u.sellerContact (cell currentRow 11),
   jsNumOr (numOfField u.transportCost) (jsNumberCell (cell currentRow 12)),
   jsNumOr (numOfField u.inspectionCost) (jsNumberCell (cell currentRow 13)),
   jsNumOr (numOfField u.otherCosts) (jsNumberCell (cell currentRow 14)),
   rawVal (cell currentRow 15),
   jsOrStr u.location (cell currentRow 16),
   rawVal (cell currentRow 17),
   rawVal (cell currentRow 18),
   jsOrStr u.investmentSplit (cell currentRow 19),
   rawVal (cell currentRow 20),
   rawVal (cell currentRow 21)]

/-- Embeds the `PUT /api/cars/:id` handler (src/backend/server.ts
lines 399 to 462): scans the ID column for the row index, 404 when
absent, otherwise writes the merged row at `Cars!A{index+2}`. -/
def updateCar (s : Store) (id : String) (u : CarUpdate) : ApiResult × List Effect :=
  match findIndexJs (fun row => cell row 0 = some id) s.carsRows with
  | none => (.apiError 404 "Car not found", [])
  | some i =>
    let currentRow := (s.carsRows.get? i).getD []
    (.ok 200, [.updateRowAt .cars i (carUpdatedRow currentRow id u)])

/-- The body of `PUT /api/sales/:id`. -/
structure SaleUpdate where
  carId : Option String
  saleDate : Option String
  salePrice : Option String
  buyerName : Option String
  buyerContactInfo : Option String
  paymentStatus : Option String
deriving DecidableEq

/-- The row written by `PUT /api/sales/:id` (src/backend/server.ts
lines 877 to 888): profit (6), total repair costs (8) and net profit
(9) carried over from the read row unchanged. -/
def saleUpdatedRow (currentRow : Row) (id : String) (u : SaleUpdate) : List JsVal :=
  [.str id,
   jsOrStr u.carId (cell currentRow 1),
   jsOrStr u.saleDate (cell currentRow 2),
   jsNumOr (numOfField u.salePrice) (jsNumberCell (cell currentRow 3)),
   jsOrStr u.buyerName (cell currentRow 4),
   jsOrStr u.buyerContactInfo (cell currentRow 5),
   rawVal (cell currentRow 6),
   jsOrStr u.paymentStatus (cell currentRow 7),
   rawVal (cell currentRow 8),
   rawVal (cell currentRow 9)]

/-- Embeds the `PUT /api/sales/:id` handler (src/backend/server.ts
lines 859 to 907). -/
def updateSale (s : Store) (id : String) (u : SaleUpdate) : ApiResult × List Effect :=
  match findIndexJs (fun row => cell row 0 = some id) s.salesRows with
  | none => (.apiError 404 "Sale not found", [])
  | some i =>
    let currentRow := (s.salesRows.get? i).getD []
    (.ok 200, [.updateRowAt .sales i (saleUpdatedRow currentRow id u)])

/-- The body of `PUT /api/repairs/:id`. -/
structure RepairUpdate where
  carId : Option String
  repairDate : Option String
  description : Option String
  cost : Option String
  mechanicName : Option String
  serviceProviderName : Option String
  serviceProviderContact : Option String
  serviceProviderAddress : Option String
deriving DecidableEq

/-- The row written by `PUT /api/repairs/:id` (src/backend/server.ts
lines 827 to 837). -/
def repairUpdatedRow (currentRow : Row) (id : String) (u : RepairUpdate) : List JsVal :=
  [.str id,
   jsOrStr u.carId (cell currentRow 1),
   jsOrStr u.repairDate (cell currentRow 2),
   jsOrStr u.description (cell currentRow 3),
   jsNumOr (numOfField u.cost) (jsNumberCell (cell currentRow 4)),
   jsOrStr u.mechanicName (cell currentRow 5),
   jsOrStr u.serviceProviderName (cell currentRow 6),
   jsOrStr u.serviceProviderContact (cell currentRow 7),
   jsOrStr u.serviceProviderAddress (cell currentRow 8)]

/-- Embeds the `PUT /api/repairs/:id` handler (src/backend/server.ts
lines 809 to 856). -/
def updateRepair (s : Store) (id : String) (u : RepairUpdate) : ApiResult × List Effect :=
  match findIndexJs (fun row => cell row 0 = some id) s.repairsRows with
  | none => (.apiError 404 "Repair not found", [])
  | some i =>
    let currentRow := (s.repairsRows.get? i).getD []
    (.ok 200, [.updateRowAt .repairs i (repairUpdatedRow currentRow id u)])

/-- The body of `PUT /api/rentals/:id`. -/
structure RentalUpdate where
  carId : Option String
  customerName : Option String
  customerContact : Option String
  startDate : Option String
  returnDate : Option String
  dailyRate : Option String
  damageFee : Option String
  lateFee : Option String
  otherFee : Option String
  additionalCostsDescription : Option String
deriving DecidableEq

/-- The row written by `PUT /api/rentals/:id` (src/backend/server.ts
lines 1057 to 1073): the formula columns (6, 7, 9, 14) carried over
from the read row unchanged. -/
def rentalUpdatedRow (currentRow : Row) (id : String) (u : RentalUpdate) : List JsVal :=
  [.str id,
   jsOrStr u.carId (cell currentRow 1),
   jsOrStr u.customerName (cell currentRow 2),
   jsOrStr u.customerContact (cell currentRow 3),
   jsOrStr u.startDate (cell currentRow 4),
   jsOrStr u.returnDate (cell currentRow 5),
   rawVal (cell currentRow 6),
   rawVal (cell currentRow 7),
   jsNumOr (numOfField u.dailyRate) (jsNumberCell (cell currentRow 8)),
   rawVal (cell currentRow 9),
   jsNumOr (numOfField u.damageFee) (jsNumberCell (cell currentRow 10)),
   jsNumOr (numOfField u.lateFee) (jsNumberCell (cell currentRow 11)),
   jsNumOr (numOfField u.otherFee) (jsNumberCell (cell currentRow 12)),
   jsOrStr u.additionalCostsDescription (cell currentRow 13),
   rawVal (cell currentRow 14)]

/-- Embeds the `PUT /api/rentals/:id` handler (src/backend/server.ts
lines 1039 to 1092). -/
def updateRental (s : Store) (id : String) (u : RentalUpdate) : ApiResult × List Effect :=
  match findIndexJs (fun row => cell row 0 = some id) s.rentalsRows with
  | none => (.apiError 404 "Rental not found", [])
  | some i =>
    let currentRow := (s.rentalsRows.get? i).getD []
    (.ok 200, [.updateRowAt .rentals i (rentalUpdatedRow currentRow id u)])

/-- Rendering of a written value as a stored cell string.  Only the
string case is exercised by the theorems below; numbers, null and
undefined get a total but approximate rendering (the store would
format numbers itself and leave null cells untouched). -/
def renderVal : JsVal → String
  | .str s => s
  | .num none => "NaN"
  | .num (some q) =>
    if q.den = 1 then intToDecStr q.num
    else intToDecStr q.num ++ "/" ++ intToDecStr q.den
  | .nullv => ""
  | .undef => ""

/-- Overwrite the cells of a row from column A on, keeping any cells
beyond the written width. -/
def setRowCells (old : Row) (vals : List JsVal) : Row :=
  vals.map renderVal ++ old.drop vals.length

/-- Pad a row with blank cells up to width `n`. -/
def padTo (row : Row) (n : Nat) : Row :=
  row ++ List.replicate (n - row.length) ""

/-- Full-row overwrite at a data-row index; out-of-range writes land
outside the modelled data range and leave it unchanged. -/
def updateRowsAt (rows : List Row) (i : Nat) (vals : List JsVal) : List Row :=
  match rows.get? i with
  | none => rows
  | some old => rows.set i (setRowCells old vals)

/-- Single-cell overwrite at a data-row index and column. -/
def updateCellAt (rows : List Row) (i col : Nat) (v : JsVal) : List Row :=
  match rows.get? i with
  | none => rows
  | some old => rows.set i ((padTo old (col + 1)).set col (renderVal v))

/-- Apply one store write.  An append also extends the column-A scan
(the appended row begins with its ID); for the in-place updates the
scan list is left as the snapshot it was read from, since no theorem
reads it after such a write. -/
def applyEffect (s : Store) (e : Effect) : Store :=
  match e with
  | .append sheet vals =>
    let r := vals.map renderVal
    let a := r.headD ""
    match sheet with
    | .cars => { s with carsRows := s.carsRows ++ [r], carsColA := s.carsColA ++ [a] }
    | .repairs =>
      { s with repairsRows := s.repairsRows ++ [r], repairsColA := s.repairsColA ++ [a] }
    | .sales => { s with salesRows := s.salesRows ++ [r], salesColA := s.salesColA ++ [a] }
    | .rentals =>
      { s with rentalsRows := s.rentalsRows ++ [r], rentalsColA := s.rentalsColA ++ [a] }
  | .updateRowAt sheet i vals =>
    match sheet with
    | .cars => { s with carsRows := updateRowsAt s.carsRows i vals }
    | .repairs => { s with repairsRows := updateRowsAt s.repairsRows i vals }
    | .sales => { s with salesRows := updateRowsAt s.salesRows i vals }
    | .rentals => { s with rentalsRows := updateRowsAt s.rentalsRows i vals }
  | .updateCell sheet col i v =>
    match sheet with
    | .cars => { s with carsRows := updateCellAt s.carsRows i col v }
    | .repairs => { s with repairsRows := updateCellAt s.repairsRows i col v }
    | .sales => { s with salesRows := updateCellAt s.salesRows i col v }
    | .rentals => { s with rentalsRows := updateCellAt s.rentalsRows i col v }

/-- Apply a prefix of a write sequence, in order: the store state after
the calls that succeeded, when a later call fails. -/
def applyEffects (s : Store) (l : List Effect) : Store :=
  l.foldl applyEffect s

/-- An existing rental interval as the add-rental form holds it
(parsed dates; modelled as integer day numbers). -/
structure RentalInterval where
  startDate : Int
  returnDate : Int
deriving DecidableEq

/-- A car of the add-rental form state together with its existing
Active rental intervals. -/
structure CarWithRentals where
  id : String
  existingRentals : List RentalInterval
deriving DecidableEq

/-- date-fns `isWithinInterval`, inclusive at both ends. -/
def isWithinInterval (d start stop : Int) : Bool :=
  start ≤ d && d ≤ stop

/-- Embeds `isDateRangeAvailable`
(src/src/pages/rentals/add-rental.tsx lines 108 to 117): the requested
range is unavailable when it contains, is contained in, or straddles
any existing rental interval of the selected car; an unknown car is
treated as available. -/
def isDateRangeAvailable (availableCars : List CarWithRentals)
    (startDate returnDate : Int) (carId : String) : Bool :=
  match availableCars.find? (fun c => c.id = carId) with
  | none => true
  | some car =>
    !(car.existingRentals.any (fun rent =>
      isWithinInterval startDate rent.startDate rent.returnDate ||
      isWithinInterval returnDate rent.startDate rent.returnDate ||
      (startDate ≤ rent.startDate && rent.returnDate ≤ returnDate)))

/-- A store with one Available car C1. -/
def stCar1 : Store :=
  { stEmpty with
    carsRows := [["C1", "Toyota", "Camry", "2020", "Blue", "REG", "50000",
                  "2024-01-01", "Available"]]
    carsColA := ["ID", "C1"] }

/-- A well-formed sale request for car C1. -/
def saleReqOk : SaleRequest :=
  { carId := "C1", saleDate := "2024-02-02", salePrice := "60000",
    buyerName := "Bob", buyerContactInfo := "555", paymentStatus := "Paid" }

/-- A sale request whose buyer name is missing, aimed at a car ID that
matches no row. -/
def saleReqMissingBuyer : SaleRequest :=
  { carId := "CX", saleDate := "2024-01-01", salePrice := "100",
    buyerName := "", buyerContactInfo := "B", paymentStatus := "Paid" }

/-- A store with an Available car C1 and an existing Active rental of
C1 covering 2024-01-10 to 2024-01-20. -/
def stC3 : Store :=
  { stEmpty with
    carsRows := [["C1", "Toyota", "Camry", "2020", "Blue", "REG", "50000",
                  "2024-01-01", "Available"]]
    carsColA := ["ID", "C1"]
    rentalsRows := [["RN1", "C1", "Alice", "555", "2024-01-10", "2024-01-20",
                     "", "", "100", "", "", "", "", "", "Active"]]
    rentalsColA := ["ID", "RN1"] }

/-- The same store with the status cell of C1 reading On Rent. -/
def stC3OnRent : Store :=
  { stC3 with
    carsRows := [["C1", "Toyota", "Camry", "2020", "Blue", "REG", "50000",
                  "2024-01-01", "On Rent"]] }

/-- A rental request for C1 whose range 2024-01-15 to 2024-01-25
overlaps the Active rental of `stC3`. -/
def rentalReqOverlap : RentalRequest :=
  { carId := "C1", customerName := "Bob", customerContact := "556",
    startDate := "2024-01-15", returnDate := "2024-01-25", dailyRate := "100",
    damageFee := "", lateFee := "", otherFee := "", additionalCostsDescription := "" }

/-- A car row whose transport, inspection and other cost cells are
blank and whose formula cells carry values. -/
def c9row : Row :=
  ["C1", "Toyota", "Camry", "2020", "Blue", "REG", "50000", "2024-01-01",
   "Available", "Good", "Ali", "555", "", "", "", "50000", "Riyadh", "doc",
   "photo", "0.5,0.5", "0", "r"]

/-- A store holding only `c9row`. -/
def stC9 : Store :=
  { stEmpty with carsRows := [c9row], carsColA := ["ID", "C1"] }

/-- C4: for every prefix and every list of existing IDs, `generateId`
strips the prefix from each ID (first-occurrence removal), parses the
remainder as an integer with non-numeric remainders treated as 0, and
returns the prefix followed by the unpadded successor of the maximum;
in particular `generateId "C" ["C1","C2","C5"] = "C6"` and
`generateId "C" [] = "C1"`, non-numeric suffixes are treated as 0
rather than failing, and a zero-padded suffix `"C007"` yields the
unpadded `"C8"`. -/
theorem c4_generateId_spec :
    (∀ (pre : String) (ids : List String),
      generateId pre ids =
        pre ++ intToDecStr
          (mathMax (ids.map (fun id => jsOrZeroInt (parseIntJs (removeFirstStr id pre)))) + 1)) ∧
    generateId "C" ["C1", "C2", "C5"] = "C6" ∧
    generateId "C" [] = "C1" ∧
    generateId "C" ["C1", "Cfoo", "C5"] = "C6" ∧
    generateId "C" ["C007"] = "C8" := by
  refine ⟨?_, by decide, by decide, by decide, by decide⟩
  intro pre ids
  cases ids with
  | nil => simp [generateId, mathMax]
  | cons x xs => simp [generateId]

/-- Concatenating the length-`L` chunks of the first `k` pages of a
list yields its first `k * L` elements. -/
theorem rangeFlatMap_take (l : List α) (L : Nat) :
    ∀ k, (List.range k).flatMap (fun i => (l.drop (i * L)).take L) = l.take (k * L) := by
  intro k
  induction k with
  | zero => simp
  | succ k ih =>
    rw [List.range_succ, List.flatMap_append, ih]
    simp only [List.flatMap_cons, List.flatMap_nil, List.append_nil]
    rw [Nat.succ_mul, List.take_add]

/-- `ceil(N / L) * L` covers `N` (lower bound of the ceiling). -/
theorem ceil_mul_ge (N L : Nat) (hL : 1 ≤ L) : N ≤ ((N + L - 1) / L) * L := by
  have h1 := Nat.div_add_mod (N + L - 1) L
  have h2 : (N + L - 1) % L < L := Nat.mod_lt _ hL
  rw [Nat.mul_comm]
  generalize h : L * ((N + L - 1) / L) = x at h1 ⊢
  omega

/-- `ceil(N / L) * L` does not overshoot by a full page. -/
theorem ceil_mul_lt (N L : Nat) (hL : 1 ≤ L) : ((N + L - 1) / L) * L < N + L := by
  have h1 := Nat.div_add_mod (N + L - 1) L
  rw [Nat.mul_comm]
  generalize h : L * ((N + L - 1) / L) = x at h1 ⊢
  omega

/-- On the natural inputs the server feeds it, `jsCeil` is the usual
natural-number ceiling formula. -/
theorem jsCeil_natCast (N L : Nat) (hL : 1 ≤ L) :
    jsCeil N L = ((N + L - 1) / L : Nat) := by
  unfold jsCeil
  have h : (N : Int) + L - 1 = ((N + L - 1 : Nat) : Int) := by omega
  rw [h]
  rfl

/-- C5 as stated is false: `GET /api/rentals` never slices its data to
the page, so with two backing rows and page size 1 each of the
ceil(2/1) = 2 pages carries both rows and the page lengths sum to 4,
not 2. -/
theorem c5_counterexample :
    stRentals2.rentalsRows.length = 2 ∧
    (getRentals stRentals2 1 1).data.length = 2 ∧
    ((getRentals stRentals2 1 1).data ++ (getRentals stRentals2 2 1).data).length = 4 := by
  decide

/-- C5 amended: the partition property holds for `GET /api/cars`
(slice-based pagination): the concatenation of the data arrays of pages
1 through ceil(N/L) is exactly the decoded row list, in original order,
each row exactly once.  `GET /api/repairs`, `GET /api/rentals` and
`GET /api/sales` instead ignore the page and limit entirely when
building their data arrays, returning every (filtered) row on every
page. -/
theorem c5_amended :
    (∀ (s : Store) (L : Nat), 1 ≤ L →
      (List.range ((s.carsRows.length + L - 1) / L)).flatMap
          (fun i => (getCars s (i + 1) L).data) =
        s.carsRows.map decodeCarPage) ∧
    (∀ (s : Store) (p L p2 L2 : Nat) (c : String),
      (getRepairs s p L c).data = (getRepairs s p2 L2 c).data) ∧
    (∀ (s : Store) (p L p2 L2 : Nat),
      (getRentals s p L).data = (getRentals s p2 L2).data) ∧
    (∀ (s : Store) (p L p2 L2 : Nat),
      (getSales s p L).data = (getSales s p2 L2).data) := by
  refine ⟨?_, fun s p L p2 L2 c => rfl, fun s p L p2 L2 => rfl, fun s p L p2 L2 => rfl⟩
  intro s L hL
  have hdata : ∀ i : Nat,
      (getCars s (i + 1) L).data = ((s.carsRows.map decodeCarPage).drop (i * L)).take L := by
    intro i
    simp [getCars, createPaginatedResponse]
  have hchunk := rangeFlatMap_take (s.carsRows.map decodeCarPage) L
      ((s.carsRows.length + L - 1) / L)
  calc (List.range ((s.carsRows.length + L - 1) / L)).flatMap
          (fun i => (getCars s (i + 1) L).data)
      = (List.range ((s.carsRows.length + L - 1) / L)).flatMap
          (fun i => ((s.carsRows.map decodeCarPage).drop (i * L)).take L) := by
        simp only [hdata]
    _ = (s.carsRows.map decodeCarPage).take (((s.carsRows.length + L - 1) / L) * L) := hchunk
    _ = s.carsRows.map decodeCarPage := by
        apply List.take_of_length_le
        rw [List.length_map]
        exact ceil_mul_ge s.carsRows.length L hL

/-- Witness for the amended C5 at a concrete store: three car rows,
page size 2, two pages reassemble the full decoded list. -/
theorem c5_witness :
    (1 : Nat) ≤ 2 ∧
    (List.range 2).flatMap (fun i => (getCars stCars3 (i + 1) 2).data) =
      stCars3.carsRows.map decodeCarPage := by
  have h := c5_amended.1 stCars3 2 (by decide)
  refine ⟨by decide, ?_⟩
  simpa [stCars3, stEmpty] using h

/-- C6 as stated is false on a fully empty sheet: the `Cars!A:A` scan
returns no values, so `totalItems = 0 - 1 = -1`, which is negative. -/
theorem c6_counterexample :
    (getCars stEmpty 1 10).pagination.totalItems = -1 := by
  decide

/-- C6 amended: for every paginated GET endpoint, when the ID-column
scan contains the header row plus one cell per data row, `totalItems`
equals the number of data rows (hence is nonnegative) and `totalPages`
is `jsCeil totalItems limit`; on a scan with no values at all
`totalItems` is -1.  The final conjunct identifies `jsCeil` with the
mathematical ceiling for a positive page size: it equals the usual
natural-number formula and satisfies the two defining bounds. -/
theorem c6_amended :
    (∀ (s : Store) (p L : Nat), s.carsColA.length = s.carsRows.length + 1 →
      (getCars s p L).pagination.totalItems = s.carsRows.length ∧
      0 ≤ (getCars s p L).pagination.totalItems ∧
      (getCars s p L).pagination.totalPages = jsCeil s.carsRows.length L) ∧
    (∀ (s : Store) (p L : Nat) (c : String),
      s.repairsColA.length = s.repairsRows.length + 1 →
      (getRepairs s p L c).pagination.totalItems = s.repairsRows.length ∧
      (getRepairs s p L c).pagination.totalPages = jsCeil s.repairsRows.length L) ∧
    (∀ (s : Store) (p L : Nat), s.salesColA.length = s.salesRows.length + 1 →
      (getSales s p L).pagination.totalItems = s.salesRows.length ∧
      (getSales s p L).pagination.totalPages = jsCeil s.salesRows.length L) ∧
    (∀ (s : Store) (p L : Nat), s.rentalsColA.length = s.rentalsRows.length + 1 →
      (getRentals s p L).pagination.totalItems = s.rentalsRows.length ∧
      (getRentals s p L).pagination.totalPages = jsCeil s.rentalsRows.length L) ∧
    (∀ (N L : Nat), 1 ≤ L →
      jsCeil N L = ((N + L - 1) / L : Nat) ∧
      (N : Int) ≤ jsCeil N L * L ∧
      (jsCeil N L - 1) * L < N) := by
  refine ⟨?_, ?_, ?_, ?_, ?_⟩
  · intro s p L h
    have ht : ((s.carsColA.length : Int) - 1) = (s.carsRows.length : Int) := by
      rw [h]; push_cast; ring
    refine ⟨?_, ?_, ?_⟩ <;>
      simp [getCars, createPaginatedResponse, ht]
  · intro s p L c h
    have ht : ((s.repairsColA.length : Int) - 1) = (s.repairsRows.length : Int) := by
      rw [h]; push_cast; ring
    exact ⟨by simp [getRepairs, createPaginatedResponse, ht],
           by simp [getRepairs, createPaginatedResponse, ht]⟩
  · intro s p L h
    have ht : ((s.salesColA.length : Int) - 1) = (s.salesRows.length : Int) := by
      rw [h]; push_cast; ring
    exact ⟨by simp [getSales, createPaginatedResponse, ht],
           by simp [getSales, createPaginatedResponse, ht]⟩
  · intro s p L h
    have ht : ((s.rentalsColA.length : Int) - 1) = (s.rentalsRows.length : Int) := by
      rw [h]; push_cast; ring
    exact ⟨by simp [getRentals, createPaginatedResponse, ht],
           by simp [getRentals, createPaginatedResponse, ht]⟩
  · intro N L hL
    have heq := jsCeil_natCast N L hL
    have hge : (N : Int) ≤ (((N + L - 1) / L : Nat) : Int) * L := by
      exact_mod_cast ceil_mul_ge N L hL
    have hlt : (((N + L - 1) / L : Nat) : Int) * L < (N : Int) + L := by
      exact_mod_cast ceil_mul_lt N L hL
    refine ⟨heq, ?_, ?_⟩ <;> rw [heq] <;> linarith

/-- Witness for the amended C6: three car rows, header present, page
size 2 gives totalItems 3 and totalPages 2. -/
theorem c6_witness :
    (getCars stCars3 1 2).pagination.totalItems = 3 ∧
    (getCars stCars3 1 2).pagination.totalPages = 2 := by
  obtain ⟨hti, _, htp⟩ := c6_amended.1 stCars3 1 2 (by decide)
  have harith := (c6_amended.2.2.2.2 3 2 (by decide)).1
  constructor
  · rw [hti]; decide
  · rw [htp]
    rw [show stCars3.carsRows.length = (3 : Nat) from by decide]
    rw [harith]; decide

/-- C10: with a truthy `carId` query parameter, the data array of
`GET /api/repairs` is the full list of decoded repair rows whose carId
matches, regardless of page and limit, while `totalItems` counts every
repair row in the store (scan length minus header), ignoring the
filter. -/
theorem c10_repairs_filter (s : Store) (p L : Nat) (c : String) (hc : c ≠ "")
    (hscan : s.repairsColA.length = s.repairsRows.length + 1) :
    (getRepairs s p L c).data =
      (s.repairsRows.map decodeRepair).filter (fun rp => rp.carId = some c) ∧
    (getRepairs s p L c).pagination.totalItems = s.repairsRows.length := by
  constructor
  · simp [getRepairs, createPaginatedResponse, hc]
  · have ht : ((s.repairsColA.length : Int) - 1) = (s.repairsRows.length : Int) := by
      rw [hscan]; push_cast; ring
    simp [getRepairs, createPaginatedResponse, ht]

/-- Witness for C10: three repair rows, two for car C1, page size 1:
the filtered data has both matching rows (more than the page size) and
totalItems is 3, the unfiltered row count. -/
theorem c10_witness :
    (getRepairs stRepairs3 1 1 "C1").data =
      [decodeRepair ["R1", "C1"], decodeRepair ["R3", "C1"]] ∧
    (getRepairs stRepairs3 1 1 "C1").pagination.totalItems = 3 := by
  have h := c10_repairs_filter stRepairs3 1 1 "C1" (by decide) (by decide)
  refine ⟨h.1.trans (by decide), by rw [h.2]; decide⟩

/-- `findIndexJs` succeeds exactly when `find?` does. -/
theorem findIndexJs_isSome (p : α → Bool) (l : List α) :
    (findIndexJs p l).isSome = (l.find? p).isSome := by
  induction l with
  | nil => rfl
  | cons a t ih =>
    by_cases h : p a
    · simp [findIndexJs, List.find?, h]
    · simp [findIndexJs, List.find?, h, ih]

/-- C2 as stated is false: the required-field validation runs before
the car lookup, so a request with a missing field (here the buyer
name) and a carId matching no row is answered 400 with a validation
message, not NotFound 404, though indeed no row is appended. -/
theorem c2_counterexample :
    stEmpty.carsRows = [] ∧
    (createSale stEmpty saleReqMissingBuyer).fst =
      .apiError 400 "Missing required fields: buyerName" ∧
    (createSale stEmpty saleReqMissingBuyer).fst ≠ .apiError 404 "Car not found" ∧
    (createSale stEmpty saleReqMissingBuyer).snd = [] := by
  decide

/-- C2 amended: for every request that passes the required-field
validation, createSale answers 404 and appends nothing when no Car row
matches carId; answers 400 Conflict and appends nothing when the
matched row's status cell is "Sold"; and otherwise appends exactly one
Sale row whose derived columns (profit, total repair costs, net
profit, offsets 6, 8, 9) are blank for the store to fill, followed by
the status-cell update.  A request failing validation is answered 400
before the lookup. -/
theorem c2_amended (s : Store) (r : SaleRequest) (hval : saleMissingFields r = []) :
    (s.carsRows.find? (fun row => cell row 0 = some r.carId) = none →
      createSale s r = (.apiError 404 "Car not found", [])) ∧
    (∀ carRow, s.carsRows.find? (fun row => cell row 0 = some r.carId) = some carRow →
      cell carRow 8 = some "Sold" →
      createSale s r = (.apiError 400 "Car is already sold", [])) ∧
    (∀ carRow, s.carsRows.find? (fun row => cell row 0 = some r.carId) = some carRow →
      cell carRow 8 ≠ some "Sold" →
      createSale s r =
        (.ok 201,
         [.append .sales
            (saleNewRow r (generateId "S" (s.salesRows.map (fun row => (cell row 0).getD "")))),
          .updateCell .cars 8
            ((findIndexJs (fun row => cell row 0 = some r.carId) s.carsRows).getD 0)
            (.str "Sold")])) ∧
    (∀ newId, (saleNewRow r newId).get? 6 = some (.str "") ∧
      (saleNewRow r newId).get? 8 = some (.str "") ∧
      (saleNewRow r newId).get? 9 = some (.str "")) := by
  refine ⟨?_, ?_, ?_, fun newId => ⟨rfl, rfl, rfl⟩⟩
  · intro hfind
    simp [createSale, hval, hfind]
  · intro carRow hfind hsold
    simp [createSale, hval, hfind, hsold]
  · intro carRow hfind hnot
    have hidx : (findIndexJs (fun row => cell row 0 = some r.carId) s.carsRows).isSome := by
      rw [findIndexJs_isSome, hfind]
      rfl
    obtain ⟨i, hi⟩ := Option.isSome_iff_exists.mp hidx
    simp [createSale, hval, hfind, hnot, hi]

/-- Witness for the amended C2: with one Available car C1 and a valid
request, createSale succeeds and issues the append followed by the
status update of row 0. -/
theorem c2_witness :
    saleMissingFields saleReqOk = [] ∧
    (createSale stCar1 saleReqOk).fst = .ok 201 ∧
    (createSale stCar1 saleReqOk).snd =
      [.append .sales (saleNewRow saleReqOk "S1"), .updateCell .cars 8 0 (.str "Sold")] := by
  have h := (c2_amended stCar1 saleReqOk (by decide)).2.2.1
    ["C1", "Toyota", "Camry", "2020", "Blue", "REG", "50000", "2024-01-01", "Available"]
    (by decide) (by decide)
  refine ⟨by decide, by rw [h], by rw [h]; decide⟩

/-- C1 as stated is false: on the success path, createSale issues a
direct single-cell write of "Sold" to the Car status column (column I)
of the backing store. -/
theorem c1_counterexample :
    (createSale stCar1 saleReqOk).snd.any isStatusCellWrite = true := by
  decide

/-- C1 amended: createSale is the one operation that writes the Car
status column directly, and it does so exactly on its success path (a
single-cell write of "Sold" to column I of the matched row, after the
Sale append); no other mutating operation issues a single-cell write
to the status column (the full-row PUT rewrite carries the previously
read status cell unchanged, see the C9 theorem). -/
theorem c1_amended :
    (∀ (s : Store) (r : SaleRequest),
      (createSale s r).snd.any isStatusCellWrite = true ↔
        (createSale s r).fst = .ok 201) ∧
    (∀ (s : Store) (r : CarCreateRequest),
      (createCar s r).snd.any isStatusCellWrite = false) ∧
    (∀ (s : Store) (r : RepairCreateRequest),
      (createRepair s r).snd.any isStatusCellWrite = false) ∧
    (∀ (s : Store) (r : RentalRequest),
      (createRental s r).snd.any isStatusCellWrite = false) ∧
    (∀ (s : Store) (id : String) (u : CarUpdate),
      (updateCar s id u).snd.any isStatusCellWrite = false) ∧
    (∀ (s : Store) (id : String) (u : RepairUpdate),
      (updateRepair s id u).snd.any isStatusCellWrite = false) ∧
    (∀ (s : Store) (id : String) (u : SaleUpdate),
      (updateSale s id u).snd.any isStatusCellWrite = false) ∧
    (∀ (s : Store) (id : String) (u : RentalUpdate),
      (updateRental s id u).snd.any isStatusCellWrite = false) := by
  refine ⟨?_, ?_, ?_, ?_, ?_, ?_, ?_, ?_⟩
  · intro s r
    by_cases hm : saleMissingFields r = []
    · cases hfind : s.carsRows.find? (fun row => cell row 0 = some r.carId) with
      | none => simp [createSale, hm, hfind]
      | some carRow =>
        by_cases hsold : cell carRow 8 = some "Sold"
        · simp [createSale, hm, hfind, hsold]
        · have hidx : (findIndexJs (fun row => cell row 0 = some r.carId) s.carsRows).isSome := by
            rw [findIndexJs_isSome, hfind]
            rfl
          obtain ⟨i, hi⟩ := Option.isSome_iff_exists.mp hidx
          simp [createSale, hm, hfind, hsold, hi, isStatusCellWrite]
    · simp [createSale, hm]
  · intro s r
    simp [createCar, isStatusCellWrite]
  · intro s r
    simp [createRepair, isStatusCellWrite]
  · intro s r
    by_cases hm : rentalMissingFields r = []
    · cases hfind : s.carsRows.find? (fun row => cell row 0 = some r.carId) with
      | none => simp [createRental, hm, hfind]
      | some carRow =>
        by_cases hav : cell carRow 8 = some "Available"
        · simp [createRental, hm, hfind, hav, isStatusCellWrite]
        · simp [createRental, hm, hfind, hav]
    · simp [createRental, hm]
  · intro s id u
    cases h : findIndexJs (fun row => cell row 0 = some id) s.carsRows with
    | none => simp [updateCar, h]
    | some i => simp [updateCar, h, isStatusCellWrite]
  · intro s id u
    cases h : findIndexJs (fun row => cell row 0 = some id) s.repairsRows with
    | none => simp [updateRepair, h]
    | some i => simp [updateRepair, h, isStatusCellWrite]
  · intro s id u
    cases h : findIndexJs (fun row => cell row 0 = some id) s.salesRows with
    | none => simp [updateSale, h]
    | some i => simp [updateSale, h, isStatusCellWrite]
  · intro s id u
    cases h : findIndexJs (fun row => cell row 0 = some id) s.rentalsRows with
    | none => simp [updateRental, h]
    | some i => simp [updateRental, h, isStatusCellWrite]

/-- C3 as stated is false: with an existing Active rental of C1 over
2024-01-10 to 2024-01-20 and a request for 2024-01-15 to 2024-01-25
(an inclusive overlap, as the client-side check of the same ranges
confirms on day numbers 10, 20, 15, 25), the POST /api/rentals handler
accepts the request with 201 and appends a Rental row, because it
never compares dates: it only checks the car status cell. -/
theorem c3_counterexample :
    cell (stC3.rentalsRows.getD 0 []) 1 = some "C1" ∧
    cell (stC3.rentalsRows.getD 0 []) 14 = some "Active" ∧
    cell (stC3.rentalsRows.getD 0 []) 4 = some "2024-01-10" ∧
    cell (stC3.rentalsRows.getD 0 []) 5 = some "2024-01-20" ∧
    isDateRangeAvailable [⟨"C1", [⟨10, 20⟩]⟩] 15 25 "C1" = false ∧
    (createRental stC3 rentalReqOverlap).fst = .ok 201 ∧
    (createRental stC3 rentalReqOverlap).snd =
      [.append .rentals (rentalNewRow rentalReqOverlap "RN2")] := by
  decide

/-- C3 amended: the POST /api/rentals handler performs no interval
comparison at all: for a validated request on an existing car it
rejects with Conflict 400 and appends nothing exactly when the status
cell is not "Available", and appends the Rental row regardless of any
overlap otherwise.  The inclusive overlap test of the claim
(start <= existing.end and existing.start <= end) is implemented
client side by isDateRangeAvailable, which flags exactly the requested
ranges overlapping an existing rental interval of the selected car. -/
theorem c3_amended :
    (∀ (s : Store) (r : RentalRequest) (carRow : Row),
      rentalMissingFields r = [] →
      s.carsRows.find? (fun row => cell row 0 = some r.carId) = some carRow →
      cell carRow 8 ≠ some "Available" →
      createRental s r = (.apiError 400 "Car is not available for rent", [])) ∧
    (∀ (s : Store) (r : RentalRequest) (carRow : Row),
      rentalMissingFields r = [] →
      s.carsRows.find? (fun row => cell row 0 = some r.carId) = some carRow →
      cell carRow 8 = some "Available" →
      createRental s r =
        (.ok 201,
         [.append .rentals
            (rentalNewRow r
              (generateId "RN" (s.rentalsRows.map (fun row => (cell row 0).getD ""))))])) ∧
    (∀ (cars : List CarWithRentals) (car : CarWithRentals)
        (startDate returnDate : Int) (carId : String),
      cars.find? (fun c => c.id = carId) = some car →
      startDate ≤ returnDate →
      (∀ rent ∈ car.existingRentals, rent.startDate ≤ rent.returnDate) →
      (isDateRangeAvailable cars startDate returnDate carId = false ↔
        ∃ rent ∈ car.existingRentals,
          startDate ≤ rent.returnDate ∧ rent.startDate ≤ returnDate)) := by
  refine ⟨?_, ?_, ?_⟩
  · intro s r carRow hval hfind hnot
    simp [createRental, hval, hfind, hnot]
  · intro s r carRow hval hfind hav
    simp [createRental, hval, hfind, hav]
  · intro cars car sd rd cid hfind hle hwf
    unfold isDateRangeAvailable
    rw [hfind]
    simp only [Bool.not_eq_false', List.any_eq_true, Bool.or_eq_true, Bool.and_eq_true,
               decide_eq_true_eq, isWithinInterval]
    constructor
    · rintro ⟨rent, hmem, hcond⟩
      have hw := hwf rent hmem
      rcases hcond with (h | h) | h <;> exact ⟨rent, hmem, by omega, by omega⟩
    · rintro ⟨rent, hmem, h1, h2⟩
      have hw := hwf rent hmem
      exact ⟨rent, hmem, by omega⟩

/-- Witness for the amended C3: the handler rejects when the status
cell reads On Rent, appends despite the overlap when it reads
Available, and the client-side check flags the overlapping range. -/
theorem c3_witness :
    (createRental stC3OnRent rentalReqOverlap).fst =
      .apiError 400 "Car is not available for rent" ∧
    (createRental stC3 rentalReqOverlap).fst = .ok 201 ∧
    isDateRangeAvailable [⟨"C1", [⟨10, 20⟩]⟩] 15 25 "C1" = false := by
  have h1 := c3_amended.1 stC3OnRent rentalReqOverlap
    ["C1", "Toyota", "Camry", "2020", "Blue", "REG", "50000", "2024-01-01", "On Rent"]
    (by decide) (by decide) (by decide)
  have h2 := c3_amended.2.1 stC3 rentalReqOverlap
    ["C1", "Toyota", "Camry", "2020", "Blue", "REG", "50000", "2024-01-01", "Available"]
    (by decide) (by decide) (by decide)
  have h3 := (c3_amended.2.2 [⟨"C1", [⟨10, 20⟩]⟩] ⟨"C1", [⟨10, 20⟩]⟩ 15 25 "C1"
    (by decide) (by decide) (by decide)).mpr ⟨⟨10, 20⟩, by decide, by decide, by decide⟩
  exact ⟨by rw [h1], by rw [h2], h3⟩

/-- C7: on the success path, createSale issues exactly two independent
write calls, the Sale append first and the Car status update second,
and if only the first call succeeds (the prefix of length one is
applied) the appended Sale row remains in the store while the Car rows
are untouched: nothing in the handler rolls the append back. -/
theorem c7_nonatomic (s : Store) (r : SaleRequest) (carRow : Row)
    (hval : saleMissingFields r = [])
    (hfind : s.carsRows.find? (fun row => cell row 0 = some r.carId) = some carRow)
    (hnot : cell carRow 8 ≠ some "Sold") :
    (createSale s r).snd.length = 2 ∧
    (createSale s r).snd.take 1 =
      [.append .sales
        (saleNewRow r (generateId "S" (s.salesRows.map (fun row => (cell row 0).getD ""))))] ∧
    applyEffects s ((createSale s r).snd.take 1) =
      { s with
        salesRows := s.salesRows ++
          [[generateId "S" (s.salesRows.map (fun row => (cell row 0).getD "")),
            r.carId, r.saleDate, r.salePrice, r.buyerName, r.buyerContactInfo,
            "", r.paymentStatus, "", ""]]
        salesColA := s.salesColA ++
          [generateId "S" (s.salesRows.map (fun row => (cell row 0).getD ""))] } := by
  have hidx : (findIndexJs (fun row => cell row 0 = some r.carId) s.carsRows).isSome := by
    rw [findIndexJs_isSome, hfind]
    rfl
  obtain ⟨i, hi⟩ := Option.isSome_iff_exists.mp hidx
  refine ⟨?_, ?_, ?_⟩ <;>
    simp [createSale, hval, hfind, hnot, hi, applyEffects, applyEffect, saleNewRow, renderVal]

/-- Witness for C7: applying only the append of the success path at
the concrete store leaves the Sale row S1 persisted and the Car rows
unchanged. -/
theorem c7_witness :
    (createSale stCar1 saleReqOk).snd.length = 2 ∧
    (applyEffects stCar1 ((createSale stCar1 saleReqOk).snd.take 1)).salesRows =
      [["S1", "C1", "2024-02-02", "60000", "Bob", "555", "", "Paid", "", ""]] ∧
    (applyEffects stCar1 ((createSale stCar1 saleReqOk).snd.take 1)).carsRows =
      stCar1.carsRows := by
  have h := c7_nonatomic stCar1 saleReqOk
    ["C1", "Toyota", "Camry", "2020", "Blue", "REG", "50000", "2024-01-01", "Available"]
    (by decide) (by decide) (by decide)
  refine ⟨h.1, ?_, ?_⟩
  · rw [h.2.2]
    decide
  · rw [h.2.2]

/-- C8 as stated is false: on the one-cell row `["C1"]` (shorter than
the 22-column car span) the `GET /api/cars` decode yields NaN for the
unguarded `Number(row[3])` year field, not 0, and leaves the missing
make cell undefined, not the empty string. -/
theorem c8_counterexample :
    (decodeCarPage ["C1"]).year = none ∧
    (decodeCarPage ["C1"]).year ≠ some 0 ∧
    (decodeCarPage ["C1"]).make = none ∧
    (decodeCarPage ["C1"]).make ≠ some "" := by
  decide

/-- C8 amended: the row decodes are total on short rows (every Lean
function below is total by construction, mirroring that the handlers
never throw on short rows), and on a row holding at most the ID cell
they produce: 0 for every `|| 0`-guarded numeric field, NaN for the
unguarded `Number` fields of the paginated decode (year, purchase
price, total cost), undefined (not the empty string) for every
unguarded string field, the empty string only for the guarded
`partnerReturns` of the paginated decode, and `some 0` for its
`profitLoss` (whose guard runs before the conversion).  A blank (not
missing) year cell instead converts to 0, since `Number("") = 0`. -/
theorem c8_amended :
    (∀ row : Row, row.length ≤ 1 →
      decodeCarPage row =
        { id := cell row 0, make := none, model := none, year := none, color := none,
          registrationNumber := none, purchasePrice := none, purchaseDate := none,
          currentStatus := none, condition := none, sellerName := none,
          sellerContact := none, transportCost := 0, inspectionCost := 0,
          otherCosts := 0, totalCost := none, location := none, documents := none,
          photo := none, investmentSplit := none, profitLoss := some 0,
          partnerReturns := "" }) ∧
    (∀ row : Row, row.length ≤ 1 →
      decodeCarRecent row =
        { id := cell row 0, make := none, model := none, year := 0, color := none,
          registrationNumber := none, purchasePrice := 0, purchaseDate := none,
          currentStatus := none, condition := none, sellerName := none,
          sellerContact := none, transportCost := 0, inspectionCost := 0,
          otherCosts := 0, totalCost := 0, location := none, documents := none,
          photo := none, investmentSplit := none, profitLoss := 0,
          partnerReturns := none }) ∧
    (∀ row : Row, cell row 3 = some "" → (decodeCarPage row).year = some 0) ∧
    (∀ row : Row, cell row 3 = none → (decodeCarPage row).year = none) := by
  refine ⟨?_, ?_, ?_, ?_⟩
  · intro row h
    match row with
    | [] => rfl
    | [a] => rfl
    | a :: b :: t => exact absurd h (by simp only [List.length_cons]; omega)
  · intro row h
    match row with
    | [] => rfl
    | [a] => rfl
    | a :: b :: t => exact absurd h (by simp only [List.length_cons]; omega)
  · intro row h
    simp [decodeCarPage, jsNumberCell, h]
    rfl
  · intro row h
    simp [decodeCarPage, jsNumberCell, h]

/-- Witness for the amended C8 at the one-cell row. -/
theorem c8_witness :
    decodeCarPage ["C1"] =
      { id := some "C1", make := none, model := none, year := none, color := none,
        registrationNumber := none, purchasePrice := none, purchaseDate := none,
        currentStatus := none, condition := none, sellerName := none,
        sellerContact := none, transportCost := 0, inspectionCost := 0,
        otherCosts := 0, totalCost := none, location := none, documents := none,
        photo := none, investmentSplit := none, profitLoss := some 0,
        partnerReturns := "" } := by
  have h := c8_amended.1 ["C1"] (by decide)
  exact h.trans (by decide)

/-- C9 as stated is false: updating car C1 with an empty body on a row
whose transport-cost cell is blank writes the number 0 (the result of
`Number("")`) into that cell, not the previous raw blank: numeric
fields do not keep the previous raw value. -/
theorem c9_counterexample :
    cell c9row 12 = some "" ∧
    (updateCar stC9 "C1" emptyCarUpdate).snd =
      [.updateRowAt .cars 0 (carUpdatedRow c9row "C1" emptyCarUpdate)] ∧
    (carUpdatedRow c9row "C1" emptyCarUpdate).get? 12 = some (.num (some 0)) ∧
    JsVal.num (some 0) ≠ .str "" := by
  decide

/-- C9 amended: in both PUT row rewrites every derived column is
carried over from the previously read raw row unchanged (car offsets
8, 15, 17, 18, 20, 21; sale offsets 6, 8, 9) and is never synthesized;
a field absent from the request keeps the previous raw value for
string-typed fields, while numeric fields (purchase price, the three
cost fields; sale price) keep `Number(previous raw)`, so a blank or
non-numeric previous cell is rewritten as 0 or NaN rather than kept
raw.  The final conjunct fixes the lookup-and-write shape of
`PUT /api/cars/:id`. -/
theorem c9_amended :
    (∀ (row : Row) (id : String) (u : CarUpdate),
      (carUpdatedRow row id u).get? 8 = some (rawVal (cell row 8)) ∧
      (carUpdatedRow row id u).get? 15 = some (rawVal (cell row 15)) ∧
      (carUpdatedRow row id u).get? 17 = some (rawVal (cell row 17)) ∧
      (carUpdatedRow row id u).get? 18 = some (rawVal (cell row 18)) ∧
      (carUpdatedRow row id u).get? 20 = some (rawVal (cell row 20)) ∧
      (carUpdatedRow row id u).get? 21 = some (rawVal (cell row 21))) ∧
    (∀ (row : Row) (id : String) (u : SaleUpdate),
      (saleUpdatedRow row id u).get? 6 = some (rawVal (cell row 6)) ∧
      (saleUpdatedRow row id u).get? 8 = some (rawVal (cell row 8)) ∧
      (saleUpdatedRow row id u).get? 9 = some (rawVal (cell row 9))) ∧
    (∀ (row : Row) (id : String) (u : CarUpdate),
      (u.make = none → (carUpdatedRow row id u).get? 1 = some (rawVal (cell row 1))) ∧
      (u.model = none → (carUpdatedRow row id u).get? 2 = some (rawVal (cell row 2))) ∧
      (u.year = none → (carUpdatedRow row id u).get? 3 = some (rawVal (cell row 3))) ∧
      (u.color = none → (carUpdatedRow row id u).get? 4 = some (rawVal (cell row 4))) ∧
      (u.registrationNumber = none →
        (carUpdatedRow row id u).get? 5 = some (rawVal (cell row 5))) ∧
      (u.purchaseDate = none →
        (carUpdatedRow row id u).get? 7 = some (rawVal (cell row 7))) ∧
      (u.condition = none → (carUpdatedRow row id u).get? 9 = some (rawVal (cell row 9))) ∧
      (u.sellerName = none →
        (carUpdatedRow row id u).get? 10 = some (rawVal (cell row 10))) ∧
      (u.sellerContact = none →
        (carUpdatedRow row id u).get? 11 = some (rawVal (cell row 11))) ∧
      (u.location = none → (carUpdatedRow row id u).get? 16 = some (rawVal (cell row 16))) ∧
      (u.investmentSplit = none →
        (carUpdatedRow row id u).get? 19 = some (rawVal (cell row 19)))) ∧
    (∀ (row : Row) (id : String) (u : CarUpdate),
      (u.purchasePrice = none →
        (carUpdatedRow row id u).get? 6 = some (.num (jsNumberCell (cell row 6)))) ∧
      (u.transportCost = none →
        (carUpdatedRow row id u).get? 12 = some (.num (jsNumberCell (cell row 12)))) ∧
      (u.inspectionCost = none →
        (carUpdatedRow row id u).get? 13 = some (.num (jsNumberCell (cell row 13)))) ∧
      (u.otherCosts = none →
        (carUpdatedRow row id u).get? 14 = some (.num (jsNumberCell (cell row 14))))) ∧
    (∀ (s : Store) (id : String) (u : CarUpdate) (i : Nat),
      findIndexJs (fun row => cell row 0 = some id) s.carsRows = some i →
      updateCar s id u =
        (.ok 200,
         [.updateRowAt .cars i (carUpdatedRow ((s.carsRows.get? i).getD []) id u)])) := by
  refine ⟨?_, ?_, ?_, ?_, ?_⟩
  · intro row id u
    exact ⟨rfl, rfl, rfl, rfl, rfl, rfl⟩
  · intro row id u
    exact ⟨rfl, rfl, rfl⟩
  · intro row id u
    refine ⟨?_, ?_, ?_, ?_, ?_, ?_, ?_, ?_, ?_, ?_, ?_⟩ <;>
      intro h <;> simp [carUpdatedRow, jsOrStr, h]
  · intro row id u
    refine ⟨?_, ?_, ?_, ?_⟩ <;>
      intro h <;> simp [carUpdatedRow, jsNumOr, numOfField, numTruthy, h]
  · intro s id u i hi
    simp [updateCar, hi]

/-- Witness for the amended C9 at the concrete row: the status cell is
carried over raw, the absent make keeps the raw cell, and the absent
purchase price becomes the numeric coercion of the raw cell. -/
theorem c9_witness :
    (carUpdatedRow c9row "C1" emptyCarUpdate).get? 8 = some (.str "Available") ∧
    (carUpdatedRow c9row "C1" emptyCarUpdate).get? 1 = some (.str "Toyota") ∧
    (carUpdatedRow c9row "C1" emptyCarUpdate).get? 6 = some (.num (some 50000)) := by
  have h1 := (c9_amended.1 c9row "C1" emptyCarUpdate).1
  have h2 := (c9_amended.2.2.1 c9row "C1" emptyCarUpdate).1 rfl
  have h3 := (c9_amended.2.2.2.1 c9row "C1" emptyCarUpdate).1 rfl
  exact ⟨h1.trans (by decide), h2.trans (by decide), h3.trans (by decide)⟩
